import Mathlib

/-!
Verification of the GnuCash GUI excerpt: the currency-selection widget
(src/gnome-utils/gnc-currency-edit.c) and the CSV import preview workflow
(src/import-export/csv/gnc-csv-import.c).

Each section shallowly embeds the slice of the C code that a property is
about: widget state becomes an explicit record, signal handlers become
state transformers, and the external collaborators that are not part of
this excerpt (the CSV parser model, the commodity table, the transaction
matcher) become explicit function parameters or, where their behaviour is
fixed by the specification, definitions marked "Modelled from the spec".
-/

namespace CurrencyEdit

/-- A commodity, identified by its mnemonic, with a full name.  Only the
ISO namespace is relevant to the widget, so the namespace tag is left
implicit (the table passed around is the ISO table). -/
structure gnc_commodity where
  mnemonic : String
  fullname : String
deriving DecidableEq

/-- Modelled from the spec: `gnc_commodity_get_printname` lives in
gnc-commodity.c, which is not part of this excerpt.  The spec says the
display name is derived from the commodity and that `getCurrency` derives
the mnemonic as the text up to the first space, so the print name is the
mnemonic followed by the full name in parentheses. -/
def gnc_commodity_get_printname (c : gnc_commodity) : String :=
  c.mnemonic ++ " (" ++ c.fullname ++ ")"

/-- Modelled from the spec: `gnc_commodity_table_lookup` (commodity-table
collaborator, `lookup(namespace, mnemonic) -> Commodity|None`) returns the
commodity registered under the given mnemonic, here the first entry of the
ISO table carrying that mnemonic. -/
def gnc_commodity_table_lookup (table : List gnc_commodity) (mnemonic : String) :
    Option gnc_commodity :=
  table.find? (fun c => c.mnemonic == mnemonic)

/-- State of the GNCCurrencyEdit combo box: the list-store rows (one print
name per row, in order) and the active row, if any. -/
structure GNCCurrencyEdit where
  entries : List String
  active : Option Nat
deriving DecidableEq

/-- The scan loop of `gnc_currency_edit_set_currency`: walk the rows in
order and return the index of the first row whose string compares equal
(`strcmp == 0`) to the print name. -/
def find_matching_row (printname : String) : List String → Option Nat
  | [] => none
  | s :: rest =>
    if printname = s then some 0
    else (find_matching_row printname rest).map Nat.succ

/-- `gnc_currency_edit_set_currency`: linear scan of the rows for an exact
print-name match; on a match that row becomes the active one and the
function returns.  An empty model (get_iter_first fails) and a scan that
finds no match both leave the widget untouched. -/
def gnc_currency_edit_set_currency (gce : GNCCurrencyEdit) (currency : gnc_commodity) :
    GNCCurrencyEdit :=
  match find_matching_row (gnc_commodity_get_printname currency) gce.entries with
  | some i => { gce with active := some i }
  | none => gce

/-- The mnemonic derivation in `gnc_currency_edit_get_currency`: the C code
duplicates the row text, finds the first space with `index(mnemonic, ' ')`
and overwrites it with a NUL, truncating the string there.  If there is no
space the string is left whole. -/
def truncate_at_space (s : String) : String :=
  String.mk (s.data.takeWhile (fun c => c != ' '))

/-- `gnc_currency_edit_get_currency`: if a row is active, read its text,
truncate at the first space, and look the result up in the ISO commodity
table (which may return none, as the C lookup may return NULL).  If no row
is active, warn and fall back to the locale default currency. -/
def gnc_currency_edit_get_currency (table : List gnc_commodity)
    (locale_default : gnc_commodity) (gce : GNCCurrencyEdit) : Option gnc_commodity :=
  match gce.active with
  | some i =>
    match gce.entries.get? i with
    | some fullname => gnc_commodity_table_lookup table (truncate_at_space fullname)
    | none => none
  | none => some locale_default

lemma find_matching_row_spec {printname : String} :
    ∀ {l : List String} {i : Nat}, find_matching_row printname l = some i →
      l.get? i = some printname ∧ ∀ j, j < i → l.get? j ≠ some printname := by
  intro l
  induction l with
  | nil => intro i h; simp [find_matching_row] at h
  | cons s rest ih =>
    intro i h
    by_cases hs : printname = s
    · simp [find_matching_row, hs] at h
      subst h
      exact ⟨by simp [hs], fun j hj => absurd hj (Nat.not_lt_zero j)⟩
    · simp [find_matching_row, hs] at h
      obtain ⟨i', hi', rfl⟩ := h
      obtain ⟨h1, h2⟩ := ih hi'
      refine ⟨by simpa using h1, ?_⟩
      intro j hj
      cases j with
      | zero => simp; exact fun hc => hs hc.symm
      | succ j' =>
        simp only [List.get?_cons_succ]
        exact h2 j' (Nat.lt_of_succ_lt_succ hj)

lemma find_matching_row_of_not_mem {printname : String} :
    ∀ {l : List String}, printname ∉ l → find_matching_row printname l = none := by
  intro l
  induction l with
  | nil => intro _; rfl
  | cons s rest ih =>
    intro h
    have hs : printname ≠ s := fun hc => h (by simp [hc])
    have hrest : printname ∉ rest := fun hc => h (by simp [hc])
    simp [find_matching_row, hs, ih hrest]

lemma find_matching_row_of_mem {printname : String} :
    ∀ {l : List String}, printname ∈ l →
      ∃ i, find_matching_row printname l = some i := by
  intro l
  induction l with
  | nil => intro h; simp at h
  | cons s rest ih =>
    intro h
    by_cases hs : printname = s
    · exact ⟨0, by simp [find_matching_row, hs]⟩
    · have : printname ∈ rest := by
        cases h with
        | head => exact absurd rfl hs
        | tail _ h' => exact h'
      obtain ⟨i, hi⟩ := ih this
      exact ⟨i + 1, by simp [find_matching_row, hs, hi]⟩

lemma takeWhile_append_space {m : List Char} (hm : ∀ c ∈ m, c ≠ ' ') (r : List Char) :
    List.takeWhile (fun c => c != ' ') (m ++ ' ' :: r) = m := by
  induction m with
  | nil => simp [List.takeWhile]
  | cons c cs ih =>
    have hc : c ≠ ' ' := hm c (by simp)
    have hcs : ∀ x ∈ cs, x ≠ ' ' := fun x hx => hm x (by simp [hx])
    have hb : (c != ' ') = true := by simp [hc]
    simp [List.takeWhile, hb, ih hcs]

lemma truncate_printname {c : gnc_commodity} (hc : ∀ ch ∈ c.mnemonic.data, ch ≠ ' ') :
    truncate_at_space (gnc_commodity_get_printname c) = c.mnemonic := by
  unfold truncate_at_space gnc_commodity_get_printname
  have hdata : (c.mnemonic ++ " (" ++ c.fullname ++ ")").data
      = c.mnemonic.data ++ ' ' :: ('(' :: c.fullname.data ++ [')']) := by
    simp [String.data_append]
  rw [hdata, takeWhile_append_space hc]

lemma takeWhile_of_all {p : Char → Bool} :
    ∀ {l : List Char}, (∀ c ∈ l, p c = true) → List.takeWhile p l = l := by
  intro l
  induction l with
  | nil => intro _; rfl
  | cons c cs ih =>
    intro h
    have hc : p c = true := h c (by simp)
    simp [List.takeWhile, hc, ih (fun x hx => h x (by simp [hx]))]

lemma lookup_of_mem_mnemonic {table : List gnc_commodity} {m : String}
    (h : ∃ d ∈ table, d.mnemonic = m) :
    ∃ e, gnc_commodity_table_lookup table m = some e ∧ e.mnemonic = m := by
  induction table with
  | nil => obtain ⟨d, hd, _⟩ := h; simp at hd
  | cons a rest ih =>
    by_cases ha : a.mnemonic = m
    · exact ⟨a, by simp [gnc_commodity_table_lookup, List.find?, ha], ha⟩
    · obtain ⟨d, hd, hdm⟩ := h
      have hdrest : d ∈ rest := by
        cases hd with
        | head => exact absurd hdm ha
        | tail _ h' => exact h'
      obtain ⟨e, he, hem⟩ := ih ⟨d, hdrest, hdm⟩
      refine ⟨e, ?_, hem⟩
      have hab : (a.mnemonic == m) = false := by simp [ha]
      simpa [gnc_commodity_table_lookup, List.find?, hab] using he

/-- C5: selecting a commodity whose print name occurs in the backing list
and then reading the selection back yields a commodity with the same
mnemonic.  The backing list is populated from the ISO commodity table
(`fill_currencies`), so every row text is some table commodity's print
name; ISO mnemonics contain no space. -/
theorem c5_set_get_roundtrip (table : List gnc_commodity)
    (locale_default : gnc_commodity) (gce : GNCCurrencyEdit) (c : gnc_commodity)
    (hpop : ∀ s ∈ gce.entries, ∃ d ∈ table, gnc_commodity_get_printname d = s)
    (htable : ∀ d ∈ table, ∀ ch ∈ d.mnemonic.data, ch ≠ ' ')
    (hc : ∀ ch ∈ c.mnemonic.data, ch ≠ ' ')
    (hin : gnc_commodity_get_printname c ∈ gce.entries) :
    ∃ e, gnc_currency_edit_get_currency table locale_default
        (gnc_currency_edit_set_currency gce c) = some e ∧ e.mnemonic = c.mnemonic := by
  obtain ⟨i, hi⟩ := find_matching_row_of_mem hin
  obtain ⟨hget, -⟩ := find_matching_row_spec hi
  have hset : gnc_currency_edit_set_currency gce c
      = { gce with active := some i } := by
    unfold gnc_currency_edit_set_currency
    rw [hi]
  obtain ⟨d, hd, hdpn⟩ := hpop _ hin
  have hdm : d.mnemonic = c.mnemonic := by
    have h1 := truncate_printname (htable d hd)
    have h2 := truncate_printname hc
    rw [hdpn] at h1
    rw [← h1, ← h2]
  obtain ⟨e, he, hem⟩ := lookup_of_mem_mnemonic ⟨d, hd, hdm⟩
  refine ⟨e, ?_, hem⟩
  rw [hset]
  unfold gnc_currency_edit_get_currency
  simp only [hget]
  rw [truncate_printname hc]
  exact he

/-- Witness for C5 at a concrete table and widget. -/
theorem c5_set_get_roundtrip_witness :
    ∃ e, gnc_currency_edit_get_currency
        [⟨"EUR", "Euro"⟩, ⟨"USD", "US Dollar"⟩] ⟨"USD", "US Dollar"⟩
        (gnc_currency_edit_set_currency
          { entries := ["EUR (Euro)", "USD (US Dollar)"], active := none }
          ⟨"USD", "US Dollar"⟩) = some e ∧ e.mnemonic = "USD" :=
  c5_set_get_roundtrip [⟨"EUR", "Euro"⟩, ⟨"USD", "US Dollar"⟩] ⟨"USD", "US Dollar"⟩
    { entries := ["EUR (Euro)", "USD (US Dollar)"], active := none }
    ⟨"USD", "US Dollar"⟩ (by decide) (by decide) (by decide) (by decide)

/-- C6: `gnc_currency_edit_set_currency` is a linear scan for an exact
print-name match: on an empty list it is a no-op, with no matching row it
leaves the widget unchanged, and on a match the first matching row becomes
active with the row list untouched. -/
theorem c6_set_currency_contract (gce : GNCCurrencyEdit) (c : gnc_commodity) :
    (gce.entries = [] → gnc_currency_edit_set_currency gce c = gce)
    ∧ (gnc_commodity_get_printname c ∉ gce.entries →
        gnc_currency_edit_set_currency gce c = gce)
    ∧ (∀ i, find_matching_row (gnc_commodity_get_printname c) gce.entries = some i →
        (gnc_currency_edit_set_currency gce c).active = some i
        ∧ gce.entries.get? i = some (gnc_commodity_get_printname c)
        ∧ ∀ j, j < i → gce.entries.get? j ≠ some (gnc_commodity_get_printname c))
    ∧ (gnc_currency_edit_set_currency gce c).entries = gce.entries := by
  refine ⟨?_, ?_, ?_, ?_⟩
  · intro h
    unfold gnc_currency_edit_set_currency
    rw [find_matching_row_of_not_mem (by simp [h])]
  · intro h
    unfold gnc_currency_edit_set_currency
    rw [find_matching_row_of_not_mem h]
  · intro i hi
    obtain ⟨h1, h2⟩ := find_matching_row_spec hi
    refine ⟨?_, h1, h2⟩
    unfold gnc_currency_edit_set_currency
    rw [hi]
  · unfold gnc_currency_edit_set_currency
    cases h : find_matching_row (gnc_commodity_get_printname c) gce.entries <;> rfl

/-- Witness for C6 at a concrete widget: the scan activates row 1, which
holds the print name, and row 0 does not. -/
theorem c6_set_currency_contract_witness :
    (gnc_currency_edit_set_currency
        { entries := ["EUR (Euro)", "USD (US Dollar)"], active := some 0 }
        ⟨"USD", "US Dollar"⟩).active = some 1
    ∧ (gnc_currency_edit_set_currency
        { entries := [], active := none } ⟨"USD", "US Dollar"⟩)
      = { entries := [], active := none } := by
  constructor
  · exact (((c6_set_currency_contract
      { entries := ["EUR (Euro)", "USD (US Dollar)"], active := some 0 }
      ⟨"USD", "US Dollar"⟩).2.2.1 1 (by decide)).1)
  · exact (c6_set_currency_contract
      { entries := [], active := none } ⟨"USD", "US Dollar"⟩).1 rfl

/-- C9: with an active row holding text `s`, `gnc_currency_edit_get_currency`
looks up exactly the truncation of `s` at the first space, and when `s`
contains no space the whole text is used unmodified. -/
theorem c9_mnemonic_truncation (table : List gnc_commodity)
    (locale_default : gnc_commodity) (gce : GNCCurrencyEdit) (i : Nat) (s : String)
    (ha : gce.active = some i) (hs : gce.entries.get? i = some s) :
    gnc_currency_edit_get_currency table locale_default gce
      = gnc_commodity_table_lookup table (truncate_at_space s)
    ∧ ((∀ ch ∈ s.data, ch ≠ ' ') → truncate_at_space s = s) := by
  constructor
  · unfold gnc_currency_edit_get_currency
    rw [ha]
    simp only [hs]
  · intro h
    unfold truncate_at_space
    rw [takeWhile_of_all (fun ch hch => by simp [h ch hch])]

/-- Witness for C9 at a concrete widget whose active row text has no space. -/
theorem c9_mnemonic_truncation_witness :
    gnc_currency_edit_get_currency [⟨"USD", "US Dollar"⟩] ⟨"USD", "US Dollar"⟩
        { entries := ["USD"], active := some 0 }
      = gnc_commodity_table_lookup [⟨"USD", "US Dollar"⟩] (truncate_at_space "USD")
    ∧ truncate_at_space "USD" = "USD" := by
  have h := c9_mnemonic_truncation [⟨"USD", "US Dollar"⟩] ⟨"USD", "US Dollar"⟩
    { entries := ["USD"], active := some 0 } 0 "USD" rfl rfl
  exact ⟨h.1, h.2 (by decide)⟩

end CurrencyEdit

namespace SepConfig

/-- The stock separator characters of `sep_button_clicked`, in checkbutton
order: space, tab, comma, colon, semicolon, hyphen. -/
def stock_separator_characters : List String := [" ", "\t", ",", ":", ";", "-"]

/-- The separator-configuration slice of the preview dialog state: the six
stock separator checkbuttons, the custom-separator checkbutton, and the
custom-separator text entry. -/
structure SepState where
  sep_buttons : List Bool
  custom_cbutton : Bool
  custom_entry : String
deriving DecidableEq

/-- The separator list that `sep_button_clicked` hands to
`stf_parse_options_csv_set_separators`: each checked stock button
contributes its character in order, then the custom separator is appended
when its checkbutton is checked and the entry text is non-blank. -/
def checked_separators (s : SepState) : List String :=
  ((List.range stock_separator_characters.length).filter
      (fun i => s.sep_buttons.getD i false)).map
    (fun i => stock_separator_characters.getD i "")
  ++ (if s.custom_cbutton ∧ s.custom_entry ≠ "" then [s.custom_entry] else [])

/-- The widget from which the separator-changed signal originated. -/
inductive SepWidget
  | stockButton (i : Nat)
  | customButton
  | customEntry
deriving DecidableEq

/-- Flipping stock checkbutton `i` (a user click, or the handler's own
`gtk_toggle_button_set_active(w, !active)` revert). -/
def toggle_stock (i : Nat) (s : SepState) : SepState :=
  { s with sep_buttons := s.sep_buttons.set i (!(s.sep_buttons.getD i false)) }

/-- Flipping the custom-separator checkbutton. -/
def toggle_custom (s : SepState) : SepState :=
  { s with custom_cbutton := !s.custom_cbutton }

/-- `sep_button_clicked`, including the signal re-entry its own revert
causes: the handler reads the checked separators from the (already
changed) widgets and reparses; on failure it erases the custom entry
(when that entry triggered the signal) or flips the triggering
checkbutton back — and `gtk_toggle_button_set_active` /
`gtk_entry_set_text` fire the same handler again, except that setting the
already-empty entry text to "" emits no change.  `parse_fails` is the
result of `gnc_csv_parse` on the given separator list (the parser lives in
gnc-csv-model.c, outside this excerpt).  Re-entry is bounded by fuel;
`none` means the revert cascade never settled. -/
def sep_button_clicked (parse_fails : List String → Bool) :
    Nat → SepWidget → SepState → Option SepState
  | 0, _, _ => none
  | fuel + 1, w, s =>
    if parse_fails (checked_separators s) then
      match w with
      | SepWidget.customEntry =>
        if s.custom_entry = "" then some s
        else sep_button_clicked parse_fails fuel SepWidget.customEntry
          { s with custom_entry := "" }
      | SepWidget.stockButton i =>
        sep_button_clicked parse_fails fuel (SepWidget.stockButton i) (toggle_stock i s)
      | SepWidget.customButton =>
        sep_button_clicked parse_fails fuel SepWidget.customButton (toggle_custom s)
    else some s

lemma getD_set_self : ∀ (l : List Bool) (i : Nat), i < l.length →
    ∀ (x : Bool), (l.set i x).getD i false = x := by
  intro l
  induction l with
  | nil => intro i h; simp at h
  | cons a rest ih =>
    intro i h x
    cases i with
    | zero => rfl
    | succ i' =>
      simp only [List.set]
      have : i' < rest.length := Nat.lt_of_succ_lt_succ h
      simpa using ih i' this x

lemma set_set_self : ∀ (l : List Bool) (i : Nat) (x : Bool),
    (l.set i x).set i (l.getD i false) = l := by
  intro l
  induction l with
  | nil => intro i x; rfl
  | cons a rest ih =>
    intro i x
    cases i with
    | zero => rfl
    | succ i' => simpa [List.set] using ih i' x

lemma toggle_stock_toggle_stock {i : Nat} {s : SepState}
    (h : i < s.sep_buttons.length) : toggle_stock i (toggle_stock i s) = s := by
  unfold toggle_stock
  cases s with
  | mk bs cb ce =>
    simp only [SepState.mk.injEq, and_true]
    simp only at h ⊢
    rw [getD_set_self bs i h, Bool.not_not, set_set_self]

lemma toggle_custom_toggle_custom {s : SepState} :
    toggle_custom (toggle_custom s) = s := by
  unfold toggle_custom
  simp

end SepConfig

namespace SepConfig

/-- C1 (amended): a failed reparse triggered by a checkbutton toggle is
reverted exactly — after the revert (whose own signal re-runs the handler
on the previously-accepted, hence successfully parsing, configuration)
the displayed state equals the state before the triggering toggle, with
no other configuration touched; a failed reparse triggered by a custom-
separator edit erases the entry to the empty string (it is NOT restored
to the previously-accepted text), leaving all other configuration
intact. -/
theorem c1_sep_revert_amended (parse_fails : List String → Bool) (s : SepState)
    (i : Nat) (t : String) (hi : i < s.sep_buttons.length) :
    (parse_fails (checked_separators s) = false →
      (parse_fails (checked_separators (toggle_stock i s)) = true →
        sep_button_clicked parse_fails 2 (SepWidget.stockButton i) (toggle_stock i s)
          = some s)
      ∧ (parse_fails (checked_separators (toggle_custom s)) = true →
        sep_button_clicked parse_fails 2 SepWidget.customButton (toggle_custom s)
          = some s))
    ∧ (t ≠ "" →
        parse_fails (checked_separators { s with custom_entry := t }) = true →
        sep_button_clicked parse_fails 2 SepWidget.customEntry
            { s with custom_entry := t }
          = some { s with custom_entry := "" }) := by
  constructor
  · intro hok
    constructor
    · intro hfail
      simp [sep_button_clicked, hfail, toggle_stock_toggle_stock hi, hok]
    · intro hfail
      simp [sep_button_clicked, hfail, toggle_custom_toggle_custom, hok]
  · intro ht hfail
    by_cases h2 : parse_fails (checked_separators { s with custom_entry := "" }) = true
    · simp [sep_button_clicked, hfail, ht, h2]
    · have h2' : parse_fails (checked_separators { s with custom_entry := "" }) = false := by
        simpa using h2
      simp [sep_button_clicked, hfail, ht, h2']

end SepConfig

namespace SepConfig

/-- A concrete parser environment: parsing fails exactly when the
separator list contains the two-character separator "xy". -/
def sep_fails_on_xy : List String → Bool := fun seps => seps.contains "xy"

/-- A concrete parser environment: parsing fails exactly when the
separator list contains "-". -/
def sep_fails_on_hyphen : List String → Bool := fun seps => seps.contains "-"

/-- Counterexample to C1 as stated: with comma checked and the accepted
custom separator "x", the user edits the custom entry to "xy" and the
reparse fails.  The handler erases the entry to "" — the custom-separator
text is NOT restored to its previously-accepted value "x". -/
theorem c1_counterexample :
    sep_button_clicked sep_fails_on_xy 2 SepWidget.customEntry
        { sep_buttons := [false, false, true, false, false, false],
          custom_cbutton := true, custom_entry := "xy" }
      = some { sep_buttons := [false, false, true, false, false, false],
               custom_cbutton := true, custom_entry := "" }
    ∧ sep_button_clicked sep_fails_on_xy 2 SepWidget.customEntry
        { sep_buttons := [false, false, true, false, false, false],
          custom_cbutton := true, custom_entry := "xy" }
      ≠ some { sep_buttons := [false, false, true, false, false, false],
               custom_cbutton := true, custom_entry := "x" } := by
  decide

/-- Witness for the amended C1 at concrete inputs: a hyphen-checkbutton
toggle whose reparse fails is rolled back to the pre-toggle state, and a
failed custom-separator edit ends with the entry erased, other
configuration intact. -/
theorem c1_sep_revert_amended_witness :
    sep_button_clicked sep_fails_on_hyphen 2 (SepWidget.stockButton 5)
        (toggle_stock 5 { sep_buttons := [false, false, false, false, false, false],
                          custom_cbutton := false, custom_entry := "" })
      = some { sep_buttons := [false, false, false, false, false, false],
               custom_cbutton := false, custom_entry := "" }
    ∧ sep_button_clicked sep_fails_on_hyphen 2 SepWidget.customEntry
        { sep_buttons := [false, false, false, false, false, false],
          custom_cbutton := true, custom_entry := "-" }
      = some { sep_buttons := [false, false, false, false, false, false],
               custom_cbutton := true, custom_entry := "" } := by
  refine ⟨((c1_sep_revert_amended sep_fails_on_hyphen
      { sep_buttons := [false, false, false, false, false, false],
        custom_cbutton := false, custom_entry := "" } 5 "x" (by decide)).1
      (by decide)).1 (by decide), ?_⟩
  exact (c1_sep_revert_amended sep_fails_on_hyphen
      { sep_buttons := [false, false, false, false, false, false],
        custom_cbutton := true, custom_entry := "x" } 0 "-" (by decide)).2
      (by decide) (by decide)

end SepConfig

namespace ColumnTypes

/-- The strings for the column types, indexed as in the C enum:
GNC_CSV_NONE, GNC_CSV_DATE, GNC_CSV_DESCRIPTION, GNC_CSV_AMOUNT. -/
def column_type_strs : List String := ["None", "Date", "Description", "Amount"]

/-- The loop body of `column_type_edited` applied to the row of column-type
strings: at the column whose renderer was edited the new text is stored;
every other column whose string equals the new text is reset to "None";
all remaining columns keep their string.  `i0` is the index of the first
listed column. -/
def column_type_edited_go (new_text : String) (edited : Nat) :
    Nat → List String → List String
  | _, [] => []
  | i0, contents :: rest =>
    (if i0 = edited then new_text
     else if contents = new_text then "None" else contents)
      :: column_type_edited_go new_text edited (i0 + 1) rest

/-- `column_type_edited`: the user assigned `new_text` to column `edited`;
the handler rewrites the whole row of column-type strings. -/
def column_type_edited (new_text : String) (edited : Nat)
    (cols : List String) : List String :=
  column_type_edited_go new_text edited 0 cols

/-- The invariant the edit handler enforces: no two distinct columns carry
the same string other than "None". -/
def types_injective (cols : List String) : Prop :=
  ∀ i, i < cols.length → ∀ j, j < cols.length → i ≠ j →
    cols.get? i = cols.get? j → cols.get? i = some "None"

instance (cols : List String) : Decidable (types_injective cols) := by
  unfold types_injective
  infer_instance

lemma column_type_edited_go_get? (new_text : String) (edited : Nat) :
    ∀ (cols : List String) (i0 j : Nat),
      (column_type_edited_go new_text edited i0 cols).get? j
        = (cols.get? j).map (fun s =>
            if i0 + j = edited then new_text
            else if s = new_text then "None" else s) := by
  intro cols
  induction cols with
  | nil => intro i0 j; simp [column_type_edited_go]
  | cons c rest ih =>
    intro i0 j
    cases j with
    | zero => simp [column_type_edited_go]
    | succ j' =>
      simp only [column_type_edited_go, List.get?_cons_succ, ih (i0 + 1) j']
      have harith : i0 + 1 + j' = i0 + (j' + 1) := by omega
      rw [harith]

lemma column_type_edited_get? (new_text : String) (edited : Nat)
    (cols : List String) (j : Nat) :
    (column_type_edited new_text edited cols).get? j
      = (cols.get? j).map (fun s =>
          if j = edited then new_text
          else if s = new_text then "None" else s) := by
  unfold column_type_edited
  rw [column_type_edited_go_get?]
  simp

lemma column_type_edited_length (new_text : String) (edited : Nat)
    (cols : List String) :
    (column_type_edited new_text edited cols).length = cols.length := by
  unfold column_type_edited
  generalize 0 = i0
  induction cols generalizing i0 with
  | nil => rfl
  | cons c rest ih => simp [column_type_edited_go, ih]

end ColumnTypes

namespace ColumnTypes

/-- C3: `column_type_edited` stores the selected type in the edited
column, resets every other column that previously carried that same
string to "None", never leaves the newly assigned non-None string in any
other column, and preserves the invariant that no two distinct columns
share a string other than "None". -/
theorem c3_column_type_injective (cols : List String) (edited : Nat)
    (new_text : String) (hinv : types_injective cols)
    (he : edited < cols.length) :
    (column_type_edited new_text edited cols).get? edited = some new_text
    ∧ (∀ j, j ≠ edited → cols.get? j = some new_text →
        (column_type_edited new_text edited cols).get? j = some "None")
    ∧ (new_text ≠ "None" → ∀ j, j ≠ edited →
        (column_type_edited new_text edited cols).get? j ≠ some new_text)
    ∧ types_injective (column_type_edited new_text edited cols) := by
  have hlen := column_type_edited_length new_text edited cols
  have hget : ∀ (l : List String) (n : Nat), n < l.length → ∃ a, l.get? n = some a := by
    intro l n hn
    exact ⟨l.get ⟨n, hn⟩, List.get?_eq_get hn⟩
  refine ⟨?_, ?_, ?_, ?_⟩
  · obtain ⟨s, hs⟩ := hget cols edited he
    rw [column_type_edited_get?, hs]
    simp
  · intro j hj hjv
    rw [column_type_edited_get?, hjv]
    simp [hj]
  · intro hnn j hj
    rw [column_type_edited_get?]
    cases hgj : cols.get? j with
    | none => simp
    | some s =>
      simp only [Option.map_some', hj, if_false, ne_eq, Option.some.injEq]
      by_cases hsv : s = new_text
      · rw [if_pos hsv]
        exact fun hc => hnn hc.symm
      · rw [if_neg hsv]
        exact hsv
  · intro i hi j hj hij heq
    rw [hlen] at hi hj
    obtain ⟨si, hsi⟩ := hget cols i hi
    obtain ⟨sj, hsj⟩ := hget cols j hj
    rw [column_type_edited_get?, hsi] at heq ⊢
    rw [column_type_edited_get?, hsj] at heq
    simp only [Option.map_some', Option.some.injEq] at heq ⊢
    by_cases hie : i = edited
    · have hje : j ≠ edited := fun hc => hij (hie.trans hc.symm)
      rw [if_pos hie] at heq ⊢
      rw [if_neg hje] at heq
      by_cases hsjv : sj = new_text
      · rw [hsjv, if_pos rfl] at heq
        exact heq
      · rw [if_neg hsjv] at heq
        exact absurd heq.symm hsjv
    · rw [if_neg hie] at heq ⊢
      by_cases hje : j = edited
      · rw [if_pos hje] at heq
        by_cases hsiv : si = new_text
        · rw [if_pos hsiv] at heq ⊢
        · rw [if_neg hsiv] at heq
          exact absurd heq hsiv
      · rw [if_neg hje] at heq
        by_cases hsiv : si = new_text
        · rw [if_pos hsiv]
        · by_cases hsjv : sj = new_text
          · rw [if_neg hsiv, if_pos hsjv] at heq
            rw [if_neg hsiv]
            exact heq
          · rw [if_neg hsiv, if_neg hsjv] at heq
            have hcols : cols.get? i = cols.get? j := by rw [hsi, hsj, heq]
            have hnone := hinv i hi j hj hij hcols
            rw [hsi] at hnone
            have hsiN : si = "None" := Option.some.inj hnone
            rw [if_neg hsiv, hsiN]

/-- Witness for C3 at a concrete row: editing column 1 of
["Date", "None", "Amount"] to "Amount" puts "Amount" in column 1, resets
column 2 to "None", and the result still has no duplicated non-None
type. -/
theorem c3_column_type_injective_witness :
    (column_type_edited "Amount" 1 ["Date", "None", "Amount"]).get? 1
        = some "Amount"
    ∧ (column_type_edited "Amount" 1 ["Date", "None", "Amount"]).get? 2
        = some "None"
    ∧ types_injective (column_type_edited "Amount" 1 ["Date", "None", "Amount"]) := by
  have h := c3_column_type_injective ["Date", "None", "Amount"] 1 "Amount"
    (by decide) (by decide)
  exact ⟨h.1, h.2.1 2 (by decide) (by decide), h.2.2.2⟩

end ColumnTypes

namespace EncodingConfig

/-- The encoding-related slice of the preview state: ParseData's current
encoding, the encoding shown by the GOCharmapSel selector, the
`encoding_selected_called` flag, the `code_encoding_calls` counter, and
counters for reported errors and preview refreshes. -/
structure EncPreview where
  pd_encoding : String
  selector_encoding : String
  encoding_selected_called : Bool
  code_encoding_calls : Nat
  errors_shown : Nat
  preview_refreshes : Nat
deriving DecidableEq

/-- One invocation of `encoding_selected`.  `conv_ok e` is the success of
`gnc_csv_convert_encoding(parse_data, e, ...)` and `parse_ok e` the
success of the subsequent `gnc_csv_parse` on the converted data; both
live in gnc-csv-model.c, outside this excerpt.  Modelled from the spec:
`convertEncoding(ParseData, encoding)` commits the new encoding into
ParseData when it succeeds and leaves ParseData unchanged when it fails.
A code-caused call only decrements `code_encoding_calls`; the first
user-caused call only sets the flag; the second does the work: on any
failure it reports an error, clears the flag and sets the selector back
to the encoding ParseData held before the attempt; on success it
refreshes the preview (which sets `code_encoding_calls` to 2 and points
the selector at ParseData's encoding) and clears the flag. -/
def encoding_selected (conv_ok parse_ok : String → Bool) (encoding : String)
    (p : EncPreview) : EncPreview :=
  if 0 < p.code_encoding_calls then
    { p with code_encoding_calls := p.code_encoding_calls - 1 }
  else if p.encoding_selected_called then
    let previous_encoding := p.pd_encoding
    if conv_ok encoding = false then
      { p with errors_shown := p.errors_shown + 1,
               encoding_selected_called := false,
               selector_encoding := previous_encoding }
    else if parse_ok encoding = false then
      { p with pd_encoding := encoding,
               errors_shown := p.errors_shown + 1,
               encoding_selected_called := false,
               selector_encoding := previous_encoding }
    else
      { p with pd_encoding := encoding,
               preview_refreshes := p.preview_refreshes + 1,
               code_encoding_calls := 2,
               selector_encoding := encoding,
               encoding_selected_called := false }
  else
    { p with encoding_selected_called := true }

/-- A user selecting a new encoding: the selector displays the choice and
the `charmap_changed` handler runs twice (the toolkit emits the signal
twice per change; the code's own comment documents this and the handler
acts only on the second call). -/
def user_encoding_change (conv_ok parse_ok : String → Bool) (encoding : String)
    (p : EncPreview) : EncPreview :=
  encoding_selected conv_ok parse_ok encoding
    (encoding_selected conv_ok parse_ok encoding
      { p with selector_encoding := encoding })

/-- Counterexample to C2 as stated: from a consistent state showing
"UTF-8", the user selects "KOI8-R"; conversion succeeds but the reparse
fails.  The selector is reverted to "UTF-8" and an error is reported,
but ParseData keeps the converted encoding "KOI8-R": ParseData and the
displayed configuration are NOT left consistent with each other. -/
theorem c2_counterexample :
    (user_encoding_change (fun _ => true) (fun e => !(e == "KOI8-R")) "KOI8-R"
        { pd_encoding := "UTF-8", selector_encoding := "UTF-8",
          encoding_selected_called := false, code_encoding_calls := 0,
          errors_shown := 0, preview_refreshes := 0 })
      = { pd_encoding := "KOI8-R", selector_encoding := "UTF-8",
          encoding_selected_called := false, code_encoding_calls := 0,
          errors_shown := 1, preview_refreshes := 0 }
    ∧ ("KOI8-R" : String) ≠ "UTF-8" := by
  decide

/-- C2 (amended): from a clean consistent state, a user encoding change
reverts the selector to the previously-accepted encoding and reports an
error whenever the attempt fails; when the conversion step itself failed
ParseData is untouched and stays consistent with the display, but when
conversion succeeded and only the reparse failed ParseData keeps the new
encoding while the selector shows the old one; on success the new
encoding is committed and the preview refreshed. -/
theorem c2_encoding_change_amended (conv_ok parse_ok : String → Bool)
    (enc : String) (p : EncPreview)
    (hcode : p.code_encoding_calls = 0)
    (hflag : p.encoding_selected_called = false)
    (hcons : p.selector_encoding = p.pd_encoding) :
    (conv_ok enc = false →
      user_encoding_change conv_ok parse_ok enc p
        = { p with errors_shown := p.errors_shown + 1 })
    ∧ (conv_ok enc = true → parse_ok enc = false →
      user_encoding_change conv_ok parse_ok enc p
        = { p with pd_encoding := enc, errors_shown := p.errors_shown + 1 })
    ∧ (conv_ok enc = true → parse_ok enc = true →
      user_encoding_change conv_ok parse_ok enc p
        = { p with pd_encoding := enc, selector_encoding := enc,
                   code_encoding_calls := 2,
                   preview_refreshes := p.preview_refreshes + 1 }) := by
  refine ⟨?_, ?_, ?_⟩
  · intro hconv
    simp [user_encoding_change, encoding_selected, hcode, hflag, hconv, hcons]
  · intro hconv hparse
    simp [user_encoding_change, encoding_selected, hcode, hflag, hconv, hparse, hcons]
  · intro hconv hparse
    simp [user_encoding_change, encoding_selected, hcode, hflag, hconv, hparse, hcons]

/-- Witness for the amended C2 at concrete inputs: conversion to "X" fails
(selector stays "UTF-8", ParseData stays "UTF-8", one error); conversion
to "KOI8-R" succeeds but reparsing fails (selector stays "UTF-8",
ParseData becomes "KOI8-R", one error); changing to "ISO-8859-1" fully
succeeds (committed and refreshed). -/
theorem c2_encoding_change_amended_witness :
    user_encoding_change (fun e => !(e == "X")) (fun e => !(e == "KOI8-R")) "X"
        { pd_encoding := "UTF-8", selector_encoding := "UTF-8",
          encoding_selected_called := false, code_encoding_calls := 0,
          errors_shown := 0, preview_refreshes := 0 }
      = { pd_encoding := "UTF-8", selector_encoding := "UTF-8",
          encoding_selected_called := false, code_encoding_calls := 0,
          errors_shown := 1, preview_refreshes := 0 }
    ∧ user_encoding_change (fun e => !(e == "X")) (fun e => !(e == "KOI8-R")) "KOI8-R"
        { pd_encoding := "UTF-8", selector_encoding := "UTF-8",
          encoding_selected_called := false, code_encoding_calls := 0,
          errors_shown := 0, preview_refreshes := 0 }
      = { pd_encoding := "KOI8-R", selector_encoding := "UTF-8",
          encoding_selected_called := false, code_encoding_calls := 0,
          errors_shown := 1, preview_refreshes := 0 }
    ∧ user_encoding_change (fun e => !(e == "X")) (fun e => !(e == "KOI8-R")) "ISO-8859-1"
        { pd_encoding := "UTF-8", selector_encoding := "UTF-8",
          encoding_selected_called := false, code_encoding_calls := 0,
          errors_shown := 0, preview_refreshes := 0 }
      = { pd_encoding := "ISO-8859-1", selector_encoding := "ISO-8859-1",
          encoding_selected_called := false, code_encoding_calls := 2,
          errors_shown := 0, preview_refreshes := 1 } := by
  refine ⟨?_, ?_, ?_⟩
  · exact (c2_encoding_change_amended (fun e => !(e == "X")) (fun e => !(e == "KOI8-R"))
      "X" _ rfl rfl rfl).1 (by decide)
  · exact (c2_encoding_change_amended (fun e => !(e == "X")) (fun e => !(e == "KOI8-R"))
      "KOI8-R" _ rfl rfl rfl).2.1 (by decide) (by decide)
  · exact (c2_encoding_change_amended (fun e => !(e == "X")) (fun e => !(e == "KOI8-R"))
      "ISO-8859-1" _ rfl rfl rfl).2.2 (by decide) (by decide)

end EncodingConfig

namespace CsvImport

/-- The slice of GncCsvParseData the workflow inspects at the hand-off:
the row indices that failed semantic parsing and the transactions built
so far (as opaque identifiers). -/
structure GncCsvParseData where
  encoding : String
  error_lines : List Nat
  transactions : List Nat
deriving DecidableEq

/-- The two error codes `gnc_csv_load_file` distinguishes. -/
inductive GncCsvErrorCode
  | fileOpenErr
  | encodingGuessErr
deriving DecidableEq

/-- Modelled from the spec: `gnc_csv_new_parse_data` (gnc-csv-model.c)
creates a fresh, empty working set. -/
def gnc_csv_new_parse_data : GncCsvParseData :=
  { encoding := "", error_lines := [], transactions := [] }

/-- The collaborators and user actions `gnc_file_csv_import` consumes, as
one environment record.  The parser functions live in gnc-csv-model.c,
the dialogs are modal user interactions; all are outside this excerpt, so
each becomes an arbitrary function on the parse data. -/
structure ImportEnv where
  /-- Result of the file-selection dialog. -/
  selected_filename : Option String
  /-- `gnc_csv_load_file`: loads (and possibly guesses an encoding for)
  the file, mutating the parse data; an error code signals failure. -/
  gnc_csv_load_file : GncCsvParseData → GncCsvParseData × Option GncCsvErrorCode
  /-- The initial `gnc_csv_parse(parse_data, TRUE, ...)`; the Bool is true
  when it returns an error. -/
  initial_parse : GncCsvParseData → GncCsvParseData × Bool
  /-- The modal initial preview (`gnc_csv_preview`): the user reconfigures
  at will (mutating the parse data) and finally clicks OK (true) or
  Cancel (false). -/
  preview_run : GncCsvParseData → GncCsvParseData × Bool
  /-- Result of `gnc_import_select_account` (an opaque account id). -/
  selected_account : Option Nat
  /-- One entry per round of the modal error preview
  (`gnc_csv_preview_errors`): the user's reconfiguration of the parse
  data and whether they clicked OK (true) or Cancel (false). -/
  error_rounds : List (GncCsvParseData → GncCsvParseData × Bool)
  /-- `gnc_parse_to_trans(parse_data, account, redo_errors)`: rebuilds
  transactions and error lines. -/
  gnc_parse_to_trans : Bool → GncCsvParseData → GncCsvParseData

/-- What the workflow did: errors reported, whether the parse data was
freed before returning, how far the workflow got, the interaction with
the transaction matcher, and the parse data at the final hand-off. -/
structure ImportOutcome where
  errors_shown : Nat
  parse_data_freed : Bool
  preview_reached : Bool
  preview_approved : Bool
  trans_build_calls : Nat
  matcher_created : Bool
  matcher_added : List Nat
  matcher_ran : Bool
  matcher_deleted : Bool
  final_parse_data : Option GncCsvParseData
  loop_canceled : Bool
deriving DecidableEq

/-- The error-correction loop of `gnc_file_csv_import`:
`while (!(error_lines == NULL || user_canceled)) { user_canceled =
gnc_csv_preview_errors(preview); gnc_parse_to_trans(parse_data, account,
TRUE); }`.  Each round consumes one entry of the user script; `none`
means the user never settled the dialog.  Returns the final parse data,
the `user_canceled` flag at exit, and the number of
`gnc_parse_to_trans` calls made inside the loop. -/
def error_correction_loop
    (ptt : Bool → GncCsvParseData → GncCsvParseData) :
    List (GncCsvParseData → GncCsvParseData × Bool) → GncCsvParseData →
      Option (GncCsvParseData × Bool × Nat)
  | script, pd =>
    if pd.error_lines = [] then some (pd, false, 0)
    else
      match script with
      | [] => none
      | round :: rest =>
        let r := round pd
        let pd2 := ptt true r.1
        if r.2 then
          match error_correction_loop ptt rest pd2 with
          | none => none
          | some (pdF, c, n) => some (pdF, c, n + 1)
        else some (pd2, true, 1)

/-- `gnc_file_csv_import`, end to end: file selection; load (fatal on
`fileOpenErr`, continue after an error dialog on `encodingGuessErr`);
initial guessing parse (error only reported); modal preview (Cancel
frees everything and returns); account selection (Cancel likewise);
`gnc_parse_to_trans(..., FALSE)`; the error-correction loop; then the
hand-off that copies every entry of `parse_data->transactions` into the
matcher and runs the matcher when that list is non-empty, deleting it
otherwise. -/
def gnc_file_csv_import (env : ImportEnv) : Option ImportOutcome :=
  match env.selected_filename with
  | none =>
    some { errors_shown := 0, parse_data_freed := false, preview_reached := false,
           preview_approved := false, trans_build_calls := 0,
           matcher_created := false, matcher_added := [], matcher_ran := false,
           matcher_deleted := false, final_parse_data := none,
           loop_canceled := false }
  | some _ =>
    let r1 := env.gnc_csv_load_file gnc_csv_new_parse_data
    let e1 : Nat := match r1.2 with | none => 0 | some _ => 1
    if r1.2 = some GncCsvErrorCode.fileOpenErr then
      some { errors_shown := e1, parse_data_freed := true,
             preview_reached := false, preview_approved := false,
             trans_build_calls := 0, matcher_created := false,
             matcher_added := [], matcher_ran := false, matcher_deleted := false,
             final_parse_data := none, loop_canceled := false }
    else
      let r2 := env.initial_parse r1.1
      let e2 := e1 + (if r2.2 then 1 else 0)
      let r3 := env.preview_run r2.1
      if r3.2 = false then
        some { errors_shown := e2, parse_data_freed := true,
               preview_reached := true, preview_approved := false,
               trans_build_calls := 0, matcher_created := false,
               matcher_added := [], matcher_ran := false, matcher_deleted := false,
               final_parse_data := none, loop_canceled := false }
      else
        match env.selected_account with
        | none =>
          some { errors_shown := e2, parse_data_freed := true,
                 preview_reached := true, preview_approved := true,
                 trans_build_calls := 0, matcher_created := false,
                 matcher_added := [], matcher_ran := false,
                 matcher_deleted := false, final_parse_data := none,
                 loop_canceled := false }
        | some _ =>
          let pd4 := env.gnc_parse_to_trans false r3.1
          match error_correction_loop env.gnc_parse_to_trans env.error_rounds pd4 with
          | none => none
          | some (pdF, canceled, n) =>
            some { errors_shown := e2, parse_data_freed := true,
                   preview_reached := true, preview_approved := true,
                   trans_build_calls := n + 1, matcher_created := true,
                   matcher_added := pdF.transactions.foldl
                     (fun acc t => acc ++ [t]) [],
                   matcher_ran := !pdF.transactions.isEmpty,
                   matcher_deleted := pdF.transactions.isEmpty,
                   final_parse_data := some pdF, loop_canceled := canceled }

lemma error_correction_loop_exit
    (ptt : Bool → GncCsvParseData → GncCsvParseData) :
    ∀ (script : List (GncCsvParseData → GncCsvParseData × Bool))
      (pd pdF : GncCsvParseData) (c : Bool) (n : Nat),
      error_correction_loop ptt script pd = some (pdF, c, n) →
      pdF.error_lines = [] ∨ c = true := by
  intro script
  induction script with
  | nil =>
    intro pd pdF c n h
    by_cases he : pd.error_lines = []
    · simp [error_correction_loop, he] at h
      exact Or.inl (h.1 ▸ he)
    · simp [error_correction_loop, he] at h
  | cons round rest ih =>
    intro pd pdF c n h
    by_cases he : pd.error_lines = []
    · simp [error_correction_loop, he] at h
      exact Or.inl (h.1 ▸ he)
    · simp only [error_correction_loop, he, if_false] at h
      by_cases happ : (round pd).2
      · simp only [happ, if_true] at h
        cases hrec : error_correction_loop ptt rest (ptt true (round pd).1) with
        | none => rw [hrec] at h; simp at h
        | some v =>
          rw [hrec] at h
          obtain ⟨pdF', c', n'⟩ := v
          simp only [Option.some.injEq, Prod.mk.injEq] at h
          obtain ⟨h1, h2, h3⟩ := h
          subst h1
          subst h2
          exact ih _ _ _ _ hrec
      · simp only [happ, if_false] at h
        simp at h
        exact Or.inr h.2.1

lemma foldl_append_singleton :
    ∀ (l acc : List Nat), l.foldl (fun a t => a ++ [t]) acc = acc ++ l := by
  intro l
  induction l with
  | nil => intro acc; simp
  | cons x xs ih =>
    intro acc
    simp only [List.foldl]
    rw [ih]
    simp

end CsvImport

namespace CsvImport

/-- C4: whenever the workflow reaches the final hand-off (the final parse
data exists in the outcome), the error-correction loop has ended with an
empty `error_lines` or with the user cancelling; the matcher exists,
receives exactly the transactions of the final parse data (cancelling
drops only the unresolved error rows, never already-built transactions),
and is run exactly when at least one transaction was produced, deleted
instead when none were. -/
theorem c4_error_loop_and_handoff (env : ImportEnv) (out : ImportOutcome)
    (pdF : GncCsvParseData)
    (h : gnc_file_csv_import env = some out)
    (hf : out.final_parse_data = some pdF) :
    out.matcher_created = true
    ∧ out.matcher_added = pdF.transactions
    ∧ (out.matcher_ran = true ↔ pdF.transactions ≠ [])
    ∧ (out.matcher_deleted = true ↔ pdF.transactions = [])
    ∧ (pdF.error_lines = [] ∨ out.loop_canceled = true) := by
  cases hsel : env.selected_filename with
  | none =>
    simp only [gnc_file_csv_import, hsel, Option.some.injEq] at h
    subst h
    simp at hf
  | some fname =>
    simp only [gnc_file_csv_import, hsel] at h
    by_cases hload : (env.gnc_csv_load_file gnc_csv_new_parse_data).2
        = some GncCsvErrorCode.fileOpenErr
    · rw [if_pos hload] at h
      simp only [Option.some.injEq] at h
      subst h
      simp at hf
    · rw [if_neg hload] at h
      by_cases happr : (env.preview_run
          (env.initial_parse (env.gnc_csv_load_file gnc_csv_new_parse_data).1).1).2 = false
      · rw [if_pos happr] at h
        simp only [Option.some.injEq] at h
        subst h
        simp at hf
      · rw [if_neg happr] at h
        cases hacct : env.selected_account with
        | none =>
          simp only [hacct, Option.some.injEq] at h
          subst h
          simp at hf
        | some acct =>
          simp only [hacct] at h
          cases hloop : error_correction_loop env.gnc_parse_to_trans env.error_rounds
              (env.gnc_parse_to_trans false (env.preview_run
                (env.initial_parse (env.gnc_csv_load_file gnc_csv_new_parse_data).1).1).1) with
          | none =>
            rw [hloop] at h
            simp at h
          | some v =>
            obtain ⟨pdF', c, n⟩ := v
            rw [hloop] at h
            simp only [Option.some.injEq] at h
            subst h
            simp only at hf
            have hpd : pdF' = pdF := by
              simpa using hf
            subst hpd
            refine ⟨rfl, ?_, ?_, ?_, ?_⟩
            · simp only
              rw [foldl_append_singleton]
              simp
            · simp only
              cases htr : pdF'.transactions <;> simp
            · simp only
              cases htr : pdF'.transactions <;> simp
            · simpa using error_correction_loop_exit env.gnc_parse_to_trans
                env.error_rounds _ pdF' c n hloop

end CsvImport

namespace CsvImport

/-- C7: `gnc_csv_load_file` failures are distinguished — a
`GNC_CSV_FILE_OPEN_ERR` aborts the workflow at once after reporting the
error and freeing the parse data (the preview and the transaction
construction are never reached, no matcher exists); an encoding-guess
error is reported but the workflow continues into the preview. -/
theorem c7_load_failure_modes (env : ImportEnv) (out : ImportOutcome)
    (fname : String) (hsel : env.selected_filename = some fname)
    (h : gnc_file_csv_import env = some out) :
    ((env.gnc_csv_load_file gnc_csv_new_parse_data).2
        = some GncCsvErrorCode.fileOpenErr →
      out.parse_data_freed = true ∧ out.preview_reached = false
      ∧ out.trans_build_calls = 0 ∧ out.matcher_created = false
      ∧ out.errors_shown = 1)
    ∧ ((env.gnc_csv_load_file gnc_csv_new_parse_data).2
        = some GncCsvErrorCode.encodingGuessErr →
      out.preview_reached = true ∧ 1 ≤ out.errors_shown
      ∧ out.parse_data_freed = true) := by
  simp only [gnc_file_csv_import, hsel] at h
  constructor
  · intro hload
    rw [if_pos hload] at h
    simp only [Option.some.injEq] at h
    subst h
    simp [hload]
  · intro hload
    have hne : (env.gnc_csv_load_file gnc_csv_new_parse_data).2
        ≠ some GncCsvErrorCode.fileOpenErr := by
      rw [hload]
      simp
    rw [if_neg hne] at h
    by_cases happr : (env.preview_run
        (env.initial_parse (env.gnc_csv_load_file gnc_csv_new_parse_data).1).1).2 = false
    · rw [if_pos happr] at h
      simp only [Option.some.injEq] at h
      subst h
      simp [hload]
    · rw [if_neg happr] at h
      cases hacct : env.selected_account with
      | none =>
        simp only [hacct, Option.some.injEq] at h
        subst h
        simp [hload]
      | some acct =>
        simp only [hacct] at h
        cases hloop : error_correction_loop env.gnc_parse_to_trans env.error_rounds
            (env.gnc_parse_to_trans false (env.preview_run
              (env.initial_parse (env.gnc_csv_load_file gnc_csv_new_parse_data).1).1).1) with
        | none =>
          rw [hloop] at h
          simp at h
        | some v =>
          obtain ⟨pdF, c, n⟩ := v
          rw [hloop] at h
          simp only [Option.some.injEq] at h
          subst h
          simp [hload]

/-- C8: if the user cancels at the initial preview dialog, the
transaction-construction step is never reached (no `gnc_parse_to_trans`
call, no matcher, nothing handed over) and the parse data is freed
before the workflow returns. -/
theorem c8_cancel_at_initial_preview (env : ImportEnv) (out : ImportOutcome)
    (h : gnc_file_csv_import env = some out)
    (hr : out.preview_reached = true)
    (ha : out.preview_approved = false) :
    out.trans_build_calls = 0 ∧ out.matcher_created = false
    ∧ out.matcher_added = [] ∧ out.final_parse_data = none
    ∧ out.parse_data_freed = true := by
  cases hsel : env.selected_filename with
  | none =>
    simp only [gnc_file_csv_import, hsel, Option.some.injEq] at h
    subst h
    simp at hr
  | some fname =>
    simp only [gnc_file_csv_import, hsel] at h
    by_cases hload : (env.gnc_csv_load_file gnc_csv_new_parse_data).2
        = some GncCsvErrorCode.fileOpenErr
    · rw [if_pos hload] at h
      simp only [Option.some.injEq] at h
      subst h
      simp at hr
    · rw [if_neg hload] at h
      by_cases happr : (env.preview_run
          (env.initial_parse (env.gnc_csv_load_file gnc_csv_new_parse_data).1).1).2 = false
      · rw [if_pos happr] at h
        simp only [Option.some.injEq] at h
        subst h
        simp
      · rw [if_neg happr] at h
        cases hacct : env.selected_account with
        | none =>
          simp only [hacct, Option.some.injEq] at h
          subst h
          simp at ha
        | some acct =>
          simp only [hacct] at h
          cases hloop : error_correction_loop env.gnc_parse_to_trans env.error_rounds
              (env.gnc_parse_to_trans false (env.preview_run
                (env.initial_parse (env.gnc_csv_load_file gnc_csv_new_parse_data).1).1).1) with
          | none =>
            rw [hloop] at h
            simp at h
          | some v =>
            obtain ⟨pdF, c, n⟩ := v
            rw [hloop] at h
            simp only [Option.some.injEq] at h
            subst h
            simp at ha

/-- A concrete happy-path environment: the file loads, the first parse
flags row 2, the user approves the preview, selects an account, one
error-correction round fixes everything, and two transactions emerge. -/
def import_env_happy : ImportEnv :=
  { selected_filename := some "txns.csv"
    gnc_csv_load_file := fun pd => (pd, none)
    initial_parse := fun pd => ({ pd with error_lines := [2] }, false)
    preview_run := fun pd => (pd, true)
    selected_account := some 0
    error_rounds := [fun pd => (pd, true)]
    gnc_parse_to_trans := fun redo pd =>
      if redo then { pd with error_lines := [], transactions := [10, 11] }
      else { pd with transactions := [10] } }

/-- The outcome of `import_env_happy`. -/
def import_out_happy : ImportOutcome :=
  { errors_shown := 0, parse_data_freed := true, preview_reached := true,
    preview_approved := true, trans_build_calls := 2, matcher_created := true,
    matcher_added := [10, 11], matcher_ran := true, matcher_deleted := false,
    final_parse_data := some { encoding := "", error_lines := [],
                               transactions := [10, 11] },
    loop_canceled := false }

/-- Witness for C4 at the concrete happy-path environment. -/
theorem c4_error_loop_and_handoff_witness :
    import_out_happy.matcher_created = true
    ∧ import_out_happy.matcher_added
        = (GncCsvParseData.mk "" [] [10, 11]).transactions
    ∧ (import_out_happy.matcher_ran = true
        ↔ (GncCsvParseData.mk "" [] [10, 11]).transactions ≠ [])
    ∧ (import_out_happy.matcher_deleted = true
        ↔ (GncCsvParseData.mk "" [] [10, 11]).transactions = [])
    ∧ ((GncCsvParseData.mk "" [] [10, 11]).error_lines = []
        ∨ import_out_happy.loop_canceled = true) :=
  c4_error_loop_and_handoff import_env_happy import_out_happy
    (GncCsvParseData.mk "" [] [10, 11]) (by decide) (by decide)

/-- Environment where opening the file fails. -/
def import_env_open_err : ImportEnv :=
  { import_env_happy with
    gnc_csv_load_file := fun pd => (pd, some GncCsvErrorCode.fileOpenErr) }

/-- Environment where only the encoding guess fails. -/
def import_env_guess_err : ImportEnv :=
  { import_env_happy with
    gnc_csv_load_file := fun pd => (pd, some GncCsvErrorCode.encodingGuessErr) }

/-- Outcome of `import_env_open_err`: immediate abort. -/
def import_out_open_err : ImportOutcome :=
  { errors_shown := 1, parse_data_freed := true, preview_reached := false,
    preview_approved := false, trans_build_calls := 0, matcher_created := false,
    matcher_added := [], matcher_ran := false, matcher_deleted := false,
    final_parse_data := none, loop_canceled := false }

/-- Outcome of `import_env_guess_err`: the error is reported, then the
workflow continues exactly as the happy path. -/
def import_out_guess_err : ImportOutcome :=
  { import_out_happy with errors_shown := 1 }

/-- Witness for C7 at the two concrete failing environments: the
file-open failure aborts with the state freed and one error shown; the
encoding-guess failure still reaches the preview. -/
theorem c7_load_failure_modes_witness :
    (import_out_open_err.parse_data_freed = true
      ∧ import_out_open_err.preview_reached = false
      ∧ import_out_open_err.trans_build_calls = 0
      ∧ import_out_open_err.matcher_created = false
      ∧ import_out_open_err.errors_shown = 1)
    ∧ (import_out_guess_err.preview_reached = true
      ∧ 1 ≤ import_out_guess_err.errors_shown
      ∧ import_out_guess_err.parse_data_freed = true) :=
  ⟨(c7_load_failure_modes import_env_open_err import_out_open_err "txns.csv"
      rfl (by decide)).1 (by decide),
   (c7_load_failure_modes import_env_guess_err import_out_guess_err "txns.csv"
      rfl (by decide)).2 (by decide)⟩

/-- Environment where the user cancels at the initial preview. -/
def import_env_cancel : ImportEnv :=
  { import_env_happy with preview_run := fun pd => (pd, false) }

/-- Outcome of `import_env_cancel`. -/
def import_out_cancel : ImportOutcome :=
  { errors_shown := 0, parse_data_freed := true, preview_reached := true,
    preview_approved := false, trans_build_calls := 0, matcher_created := false,
    matcher_added := [], matcher_ran := false, matcher_deleted := false,
    final_parse_data := none, loop_canceled := false }

/-- Witness for C8 at the concrete cancelling environment. -/
theorem c8_cancel_at_initial_preview_witness :
    import_out_cancel.trans_build_calls = 0
    ∧ import_out_cancel.matcher_created = false
    ∧ import_out_cancel.matcher_added = []
    ∧ import_out_cancel.final_parse_data = none
    ∧ import_out_cancel.parse_data_freed = true :=
  c8_cancel_at_initial_preview import_env_cancel import_out_cancel
    (by decide) (by decide) (by decide)

end CsvImport

namespace PreviewRefresh

/-- The parse-data fields `gnc_csv_preview_treeview` reads or writes: the
original rows, the error row indices, the encoding, and the date format
(a combo-box index; `gtk_combo_box_get_active` may return -1). -/
structure ParseDataView where
  orig_lines : List (List String)
  error_lines : List Nat
  encoding : String
  date_format : Int
deriving DecidableEq

/-- The preview-dialog state `gnc_csv_preview_treeview` touches: whether
only error rows are being shown, the rows currently displayed by the data
treeview, the encoding selector, the `code_encoding_calls` counter, and
the active index of the date-format combo box. -/
structure PreviewUI where
  previewing_errors : Bool
  displayed_rows : List (List String)
  selector_encoding : String
  code_encoding_calls : Nat
  date_format_combo_active : Int
deriving DecidableEq

/-- The row projection the refresh loads into the data store: when
previewing errors, only the rows whose index is in `error_lines` (in that
list's order); otherwise all original rows. -/
def displayed_rows_of (pd : ParseDataView) (previewing_errors : Bool) :
    List (List String) :=
  if previewing_errors then pd.error_lines.filterMap (fun i => pd.orig_lines.get? i)
  else pd.orig_lines

/-- `gnc_csv_preview_treeview`: rebuild the displayed rows from the parse
data, point the encoding selector at the parse data's encoding (setting
`code_encoding_calls` to 2 to swallow the code-caused signals), and
finally overwrite the parse data's date format with the date-format combo
box's currently active index. -/
def gnc_csv_preview_treeview (ui : PreviewUI) (pd : ParseDataView) :
    PreviewUI × ParseDataView :=
  ({ ui with displayed_rows := displayed_rows_of pd ui.previewing_errors,
             code_encoding_calls := 2,
             selector_encoding := pd.encoding },
   { pd with date_format := ui.date_format_combo_active })

/-- C10: after any refresh — whatever date format the parse data held
before, and whichever configuration change triggered the refresh — the
parse data's date format equals the date-format combo box's active
index. -/
theorem c10_refresh_overwrites_date_format (ui : PreviewUI) (pd : ParseDataView) :
    ((gnc_csv_preview_treeview ui pd).2).date_format = ui.date_format_combo_active
    ∧ ((gnc_csv_preview_treeview ui pd).2).date_format
        = ((gnc_csv_preview_treeview ui pd).1).date_format_combo_active := by
  exact ⟨rfl, rfl⟩

end PreviewRefresh
